import Mathlib

/-!
Verification of the `order_genfile` genotype-reordering script against its
specification.  The script reorders per-sample genotype probability triplets in
a row-per-variant text format so that sample columns follow a target order.

This file is a shallow embedding of `src/order_genfile.py`: each Python
function is translated to an executable Lean definition (fallible code returns
`Except Err`), and the theorems at the end of the file settle the frozen
claims about the program.
-/

set_option autoImplicit false

namespace OrderGenfile

/-- Errors a run of the program can terminate with.  Constructors model both
the messages passed to `print_error_and_stop` and the Python runtime
exceptions (TypeError / AttributeError / IndexError) that the script can
raise before reaching its own error reporting. -/
inductive Err where
  | inconsistentRowWidth
  | typeError
  | genotypeCountMismatch : String → Nat → Err
  | duplicateIdentifier
  | unmatchedSample : String → Err
  | attributeError : String → Err
  | indexError
  | incompletePermutation
  | missingOutputDestination
deriving DecidableEq

/-- Python value that is either a `str` or an array of strings; used to model
`' '.join(...)` applied to the rows of a 2-D numpy string array. -/
inductive PyV where
  | str : String → PyV
  | arr : List String → PyV
deriving DecidableEq

/-- Python `str.strip()` : remove leading and trailing whitespace. -/
def pyStrip (s : String) : String :=
  String.mk (((s.toList.dropWhile Char.isWhitespace).reverse.dropWhile
    Char.isWhitespace).reverse)

/-- Split a character list at every character satisfying `p`, keeping empty
groups (the semantics of Python `str.split(sep)` for a one-character `sep`). -/
def splitPred (p : Char → Bool) : List Char → List (List Char)
  | [] => [[]]
  | c :: rest =>
    if p c then [] :: splitPred p rest
    else
      match splitPred p rest with
      | [] => [[c]]
      | g :: gs => (c :: g) :: gs

/-- Python `s.split(' ')` : split on every single space, keeping empty fields. -/
def pySplitSpace (s : String) : List String :=
  (splitPred (fun c => c == ' ') s.toList).map String.mk

/-- Python `s.split()` : split on whitespace runs, dropping empty fields. -/
def pySplitWs (s : String) : List String :=
  ((splitPred Char.isWhitespace s.toList).filter (fun g => !g.isEmpty)).map String.mk

/-- Python `sep.join(strings)`. -/
def pySepJoin (sep : String) : List String → String
  | [] => ""
  | [a] => a
  | a :: b :: rest => a ++ sep ++ pySepJoin sep (b :: rest)

/-- Python `sep.join(items)` where the items may be non-strings: `str.join`
raises a TypeError as soon as an item is not a `str`.  Iterating a 2-D numpy
string array yields its rows (arrays), which are not strings. -/
def pyStrJoinItems (sep : String) : List PyV → Except Err String
  | [] => .ok ""
  | [PyV.str s] => .ok s
  | PyV.str s :: x :: rest =>
    match pyStrJoinItems sep (x :: rest) with
    | .error e => .error e
    | .ok t => .ok (s ++ sep ++ t)
  | PyV.arr _ :: _ => .error .typeError

/-- Concatenation of rows each terminated by a newline; the text a stream of
`op.write` calls of the program produces. -/
def linesOut : List String → String
  | [] => ""
  | r :: rs => r ++ "\n" ++ linesOut rs

/-- Python `d[k] = v` on an insertion-ordered dict represented as an
association list: overwrite in place if the key exists, else append. -/
def dictSet {K V : Type} [BEq K] (d : List (K × V)) (k : K) (v : V) :
    List (K × V) :=
  if d.any (fun p => p.1 == k) then
    d.map (fun p => if p.1 == k then (k, v) else p)
  else d ++ [(k, v)]

/-- Python `l[i] = v` on a list: raises IndexError when `i` is out of range. -/
def pyListSet {α : Type} (l : List α) (i : Nat) (v : α) : Except Err (List α) :=
  if i < l.length then .ok (l.set i v) else .error .indexError

/-- Columns of one data line: `line.strip().split(' ')`. -/
def gen_cols (l : String) : List String :=
  pySplitSpace (pyStrip l)

/-- Descriptor-column count chosen by `read_gen_lines` from the total column
count `w` of the first row: 6 when `w` is divisible by 3, else 5. -/
def i_genotypes_of (w : Nat) : Nat :=
  if w % 3 = 0 then 6 else 5

/-- Embedding of `read_gen_lines(lines, n_samples)`: split every line on
single spaces, check all lines share the first line's column count, split off
the descriptor columns, check the remaining count is `3 * n_samples`, and
reshape the genotype columns of each row into per-sample triplets.
`numpy.array(...)[0]` on an empty batch raises IndexError; on a genotype-count
mismatch the script formats its message with `' '.join(non_genotype_cols)`
over the 2-D descriptor array, modelled by `pyStrJoinItems`. -/
def read_gen_lines (lines : List String) (n_samples : Nat) :
    Except Err (List (List String) × List (List (List String))) :=
  match lines with
  | [] => .error .indexError
  | l0 :: rest =>
    let array := (l0 :: rest).map gen_cols
    let n := (gen_cols l0).length
    if array.all (fun i => i.length == n) then
      let i_genotypes := i_genotypes_of n
      let non_genotype_cols := array.map (fun r => r.take i_genotypes)
      let genotype_cols := array.map (fun r => r.drop i_genotypes)
      if ((gen_cols l0).drop i_genotypes).length == 3 * n_samples then
        .ok (non_genotype_cols,
          genotype_cols.map (fun g =>
            (List.range n_samples).map (fun j => (g.drop (3 * j)).take 3)))
      else
        match pyStrJoinItems " " (non_genotype_cols.map PyV.arr) with
        | .error e => .error e
        | .ok s => .error (.genotypeCountMismatch s n_samples)
    else .error .inconsistentRowWidth

/-- Embedding of `_write_lines(op, lines, n_samples_input, index_array)`:
parse the batch, gather the sample axis through `index_array` (numpy fancy
indexing raises IndexError on an out-of-range index), flatten the reordered
triplets, stack the descriptor columns back in front, and write the
space-joined rows joined by newlines plus a trailing newline.  Returns the
written text together with the row count `len(op_lines)`. -/
def _write_lines (lines : List String) (n_samples : Nat)
    (index_array : List Nat) : Except Err (String × Nat) :=
  match read_gen_lines lines n_samples with
  | .error e => .error e
  | .ok (snp_info_lines, genotypes) =>
    if index_array.all (fun j => decide (j < n_samples)) then
      let ordered_genotypes :=
        genotypes.map (fun row => (index_array.map (fun j => row.getD j [])).flatten)
      let op_data := List.zipWith (fun a b => a ++ b) snp_info_lines ordered_genotypes
      let op_lines := op_data.map (fun r => pySepJoin " " r)
      .ok (pySepJoin "\n" op_lines ++ "\n", op_lines.length)
    else .error .indexError

/-- Module-level constant `MAX_SNPS_IN_BUFFER`. -/
def MAX_SNPS_IN_BUFFER : Nat := 6

/-- Loop of `write_output`: accumulate lines in `buffered`, flush through
`_write_lines` whenever the buffer reaches `bufSize`, and flush the remaining
partial batch at end of input.  `out` is the text written so far and
`counter` the running row count. -/
def write_output_go (bufSize n_samples : Nat) (index_array : List Nat) :
    List String → List String → String → Nat → Except Err (String × Nat)
  | buffered, [], out, counter =>
    if buffered.length > 0 then
      match _write_lines buffered n_samples index_array with
      | .error e => .error e
      | .ok (s, c) => .ok (out ++ s, counter + c)
    else .ok (out, counter)
  | buffered, line :: rest, out, counter =>
    if (buffered ++ [line]).length = bufSize then
      match _write_lines (buffered ++ [line]) n_samples index_array with
      | .error e => .error e
      | .ok (s, c) =>
        write_output_go bufSize n_samples index_array [] rest (out ++ s) (counter + c)
    else write_output_go bufSize n_samples index_array (buffered ++ [line]) rest out counter

/-- `write_output` with an explicit buffer size. -/
def write_output_buf (bufSize : Nat) (lines : List String) (n_samples : Nat)
    (index_array : List Nat) : Except Err (String × Nat) :=
  write_output_go bufSize n_samples index_array [] lines "" 0

/-- Embedding of `write_output(ip, op, n_samples_input, index_array)` with the
script's buffer size `MAX_SNPS_IN_BUFFER`. -/
def write_output (lines : List String) (n_samples : Nat)
    (index_array : List Nat) : Except Err (String × Nat) :=
  write_output_buf MAX_SNPS_IN_BUFFER lines n_samples index_array

/-- Identifier sequence built by `read_sample_order`: for every line the first
two whitespace tokens joined by one space, with the first two lines discarded
afterwards when the source is a full sample (metadata) file. -/
def sample_ids (fileLines : List String) (is_sample_file : Bool) : List String :=
  let ids := fileLines.map (fun l => pySepJoin " " ((pySplitWs (pyStrip l)).take 2))
  if is_sample_file then ids.drop 2 else ids

/-- Embedding of `read_sample_order(fname, is_sample_file)`: the duplicate
check `len({i: i for i in ids}) != len(ids)` compares the number of distinct
identifiers (the size of the dict built by the comprehension, `ids.dedup.length`)
with the list length. -/
def read_sample_order (fileLines : List String) (is_sample_file : Bool) :
    Except Err (List String) :=
  if (sample_ids fileLines is_sample_file).dedup.length ≠
      (sample_ids fileLines is_sample_file).length then
    .error .duplicateIdentifier
  else .ok (sample_ids fileLines is_sample_file)

/-- Lines 169-186 of `main`: build `new_sample_dict` from the target order and
the old-index → new-index dict over the input order; an input sample missing
from the target order is skipped when subsetting is allowed and fatal
otherwise. -/
def build_old_to_new (input_order target_order : List String)
    (allow_subsetting : Bool) : Except Err (List (Nat × Nat)) :=
  let new_sample_dict :=
    target_order.enum.foldl (fun d p => dictSet d p.2 p.1) []
  input_order.enum.foldlM
    (fun acc p =>
      match List.lookup p.2 new_sample_dict with
      | some i_new => .ok (dictSet acc p.1 i_new)
      | none =>
        if allow_subsetting then .ok acc
        else .error (.unmatchedSample p.2))
    []

/-- Inversion `{i_new: i_old for i_old, i_new in old_to_new_index.items()}`. -/
def invert_old_to_new (old_to_new : List (Nat × Nat)) : List (Nat × Nat) :=
  old_to_new.foldl (fun d p => dictSet d p.2 p.1) []

/-- Lines 204-212 of `main`: allocate `[None] * len(new_to_old_index)`, place
every old index at its new position (Python list assignment raises IndexError
out of range), and fail when a `None` slot remains. -/
def build_index_array (new_to_old : List (Nat × Nat)) :
    Except Err (List Nat) :=
  match new_to_old.foldlM
      (fun a (p : Nat × Nat) => pyListSet a p.1 (some p.2))
      (new_to_old.map (fun _ => (none : Option Nat))) with
  | .error e => .error e
  | .ok arr =>
    if arr.any (fun o => o.isNone) then .error .incompletePermutation
    else .ok (arr.map (fun o => o.getD 0))

/-- Index resolution of `main`: old→new mapping followed by inversion and
index-array construction (the steps of lines 169-186 and 204-212). -/
def resolve_index_array (input_order target_order : List String)
    (allow_subsetting : Bool) : Except Err (List Nat) :=
  match build_old_to_new input_order target_order allow_subsetting with
  | .error e => .error e
  | .ok o2n => build_index_array (invert_old_to_new o2n)

/-- Lines 191-202 of `main`: rewrite the sample file.  `new_lines` starts as
`[None] * len(new_sample_order)`; each old data line is placed at its new
position; the header is prepended and every entry is `strip()`-ped, which
raises AttributeError on a `None` left in an unmatched slot. -/
def write_new_sample_lines (old_lines : List String)
    (new_sample_order : List String) (old_to_new : List (Nat × Nat)) :
    Except Err String := do
  let filled ← (old_lines.drop 2).enum.foldlM
    (fun acc (p : Nat × String) =>
      match List.lookup p.1 old_to_new with
      | some i_new => pyListSet acc i_new (some p.2)
      | none => .ok acc)
    (new_sample_order.map (fun _ => (none : Option String)))
  let new_lines := (old_lines.take 2).map some ++ filled
  let stripped ← new_lines.mapM
    (fun o => match o with
      | some s => Except.ok (pyStrip s)
      | none => Except.error (Err.attributeError "strip"))
  .ok (pySepJoin "\n" stripped ++ "\n")

/-- Lines 157-212 of `main` in program order: read both sample orders, build
the old→new mapping, write the new sample file, then build the index array.
Returns the new sample-file text and the index array. -/
def main_resolve (sample_in_lines target_lines : List String)
    (target_is_sample : Bool) (allow_subsetting : Bool) :
    Except Err (String × List Nat) := do
  let input_sample_order ← read_sample_order sample_in_lines true
  let new_sample_order ← read_sample_order target_lines target_is_sample
  let o2n ← build_old_to_new input_sample_order new_sample_order allow_subsetting
  let sample_out ← write_new_sample_lines sample_in_lines new_sample_order o2n
  let idx ← build_index_array (invert_old_to_new o2n)
  .ok (sample_out, idx)

/-- Value stored in an attribute of the argparse `Namespace`. -/
inductive AttrVal where
  | str : String → AttrVal
  | nonePy : AttrVal
  | bool : Bool → AttrVal
deriving DecidableEq

/-- Recognized command-line options, one field per `add_argument` call of
`parse_options` (an optional path is `none` when the flag is left out). -/
structure CmdOptions where
  genfile_in : Option String
  genfile_out : Option String
  sample_in : Option String
  sample_out : Option String
  order : Option String
  model_sample : Option String
  allow_subsetting : Bool

/-- Attribute value for an argparse option with `default=None`. -/
def optAttr : Option String → AttrVal
  | some s => .str s
  | none => .nonePy

/-- Namespace produced by `parse_options()`: argparse stores every option
under its `dest` name, so `--order` is stored under the attribute `order`. -/
def parse_options_ns (o : CmdOptions) : List (String × AttrVal) :=
  [("genfile_in", optAttr o.genfile_in),
   ("genfile_out", optAttr o.genfile_out),
   ("sample_in", optAttr o.sample_in),
   ("sample_out", optAttr o.sample_out),
   ("order", optAttr o.order),
   ("model_sample", optAttr o.model_sample),
   ("allow_subsetting", .bool o.allow_subsetting)]

/-- Python attribute access `options.<name>`: AttributeError when the
namespace has no attribute of that name. -/
def nsGetattr (ns : List (String × AttrVal)) (name : String) :
    Except Err AttrVal :=
  match List.lookup name ns with
  | some v => .ok v
  | none => .error (.attributeError name)

/-- Lines 162-168 of `main`: choose the target-order source.  The target file
name starts as `options.model_sample` with `is_sample_file = True`; when
`--model-sample` was not given the script reads `options.new_order` instead
and sets `is_sample_file = False`. -/
def select_target_order_source (ns : List (String × AttrVal)) :
    Except Err (AttrVal × Bool) := do
  let ms ← nsGetattr ns "model_sample"
  match ms with
  | .nonePy => do
    let v ← nsGetattr ns "new_order"
    .ok (v, false)
  | v => .ok (v, true)

/-- Closed form of one reordered output row: the descriptor columns followed
by the gathered triplets, space-joined.  `w` is the common column count of the
batch the row belongs to. -/
def row_out (w : Nat) (index_array : List Nat) (l : String) : String :=
  pySepJoin " "
    ((gen_cols l).take (i_genotypes_of w) ++
      (index_array.map
        (fun j => (((gen_cols l).drop (i_genotypes_of w)).drop (3 * j)).take 3)).flatten)

/-- Seven data rows for two input samples: the first six (one full buffer of
`MAX_SNPS_IN_BUFFER` rows) have 11 columns (5 descriptors), the seventh has 12
columns (6 descriptors, leading chromosome code). -/
def mixed_width_lines : List String :=
  ["1 rs1 0 A G 0.1 0.2 0.7 0.3 0.3 0.4",
   "1 rs2 0 A G 0.1 0.2 0.7 0.3 0.3 0.4",
   "1 rs3 0 A G 0.1 0.2 0.7 0.3 0.3 0.4",
   "1 rs4 0 A G 0.1 0.2 0.7 0.3 0.3 0.4",
   "1 rs5 0 A G 0.1 0.2 0.7 0.3 0.3 0.4",
   "1 rs6 0 A G 0.1 0.2 0.7 0.3 0.3 0.4",
   "7 1 rs7 0 A G 0.1 0.2 0.7 0.3 0.3 0.4"]

/-! ### Helper lemmas -/

theorem linesOut_append (xs ys : List String) :
    linesOut (xs ++ ys) = linesOut xs ++ linesOut ys := by
  induction xs with
  | nil => simp [linesOut]
  | cons r rs ih =>
    simp only [List.cons_append, linesOut, List.append_eq, ih, String.append_assoc]

theorem pySepJoin_nl (r : String) (rs : List String) :
    pySepJoin "\n" (r :: rs) ++ "\n" = linesOut (r :: rs) := by
  induction rs generalizing r with
  | nil => simp [pySepJoin, linesOut]
  | cons x xs ih =>
    simp only [pySepJoin, String.append_assoc, ih x, linesOut]

theorem getD_map_range {α : Type} (n : Nat) (f : Nat → α) (d : α) :
    ∀ j : Nat, j < n → ((List.range n).map f).getD j d = f j := by
  induction n generalizing f with
  | zero => intro j hj; omega
  | succ m ih =>
    intro j hj
    rw [List.range_succ_eq_map, List.map_cons, List.map_map]
    cases j with
    | zero => rfl
    | succ i =>
      rw [List.getD_cons_succ]
      exact ih (fun k => f (Nat.succ k)) i (by omega)

theorem zipWith_append_map {α : Type} (f g : α → List String) :
    ∀ l : List α,
      List.zipWith (fun a b => a ++ b) (l.map f) (l.map g) =
        l.map (fun x => f x ++ g x) := by
  intro l
  induction l with
  | nil => rfl
  | cons x xs ih => simp [List.zipWith, ih]

theorem join_chunks {α : Type} :
    ∀ (n : Nat) (g : List α), g.length = 3 * n →
      ((List.range n).map (fun j => (g.drop (3 * j)).take 3)).flatten = g := by
  intro n
  induction n with
  | zero =>
    intro g hg
    have : g = [] := List.eq_nil_of_length_eq_zero (by omega)
    simp [this]
  | succ m ih =>
    intro g hg
    rw [List.range_succ_eq_map, List.map_cons, List.map_map, List.flatten_cons]
    have hmap : (List.map ((fun j => (g.drop (3 * j)).take 3) ∘ Nat.succ)
        (List.range m)) =
        (List.range m).map (fun j => ((g.drop 3).drop (3 * j)).take 3) := by
      apply List.map_congr_left
      intro j _
      simp only [Function.comp_apply, List.drop_drop]
      have : 3 * Nat.succ j = 3 + 3 * j := by omega
      rw [this]
    rw [hmap, ih (g.drop 3) (by simp; omega)]
    simp

theorem read_gen_lines_ok (w n_samples : Nat) (l0 : String) (rest : List String)
    (hw : ∀ l ∈ l0 :: rest, (gen_cols l).length = w)
    (hc : w - i_genotypes_of w = 3 * n_samples) :
    read_gen_lines (l0 :: rest) n_samples =
      .ok ((l0 :: rest).map (fun l => (gen_cols l).take (i_genotypes_of w)),
           (l0 :: rest).map (fun l =>
             (List.range n_samples).map
               (fun j => (((gen_cols l).drop (i_genotypes_of w)).drop (3 * j)).take 3))) := by
  have h0 : (gen_cols l0).length = w := hw l0 (List.mem_cons_self _ _)
  have hall : ((l0 :: rest).map gen_cols).all
      (fun i => i.length == w) = true := by
    rw [List.all_eq_true]
    intro x hx
    rcases List.mem_map.mp hx with ⟨l, hl, rfl⟩
    rw [beq_iff_eq, hw l hl]
  have hcnt : (((gen_cols l0).drop (i_genotypes_of w)).length ==
      3 * n_samples) = true := by
    rw [beq_iff_eq, List.length_drop, h0]
    exact hc
  simp only [read_gen_lines, h0, hall, if_true, hcnt, List.map_map]
  rfl

theorem _write_lines_ok (w n_samples : Nat) (index_array : List Nat)
    (l0 : String) (rest : List String)
    (hw : ∀ l ∈ l0 :: rest, (gen_cols l).length = w)
    (hc : w - i_genotypes_of w = 3 * n_samples)
    (hidx : ∀ j ∈ index_array, j < n_samples) :
    _write_lines (l0 :: rest) n_samples index_array =
      .ok (linesOut ((l0 :: rest).map (row_out w index_array)),
           (l0 :: rest).length) := by
  have hall : index_array.all (fun j => decide (j < n_samples)) = true := by
    rw [List.all_eq_true]
    intro j hj
    exact decide_eq_true (hidx j hj)
  have hrow : ∀ l : String,
      ((index_array.map (fun j =>
          ((List.range n_samples).map
            (fun i => (((gen_cols l).drop (i_genotypes_of w)).drop (3 * i)).take 3)).getD j [])).flatten) =
        (index_array.map (fun j =>
          (((gen_cols l).drop (i_genotypes_of w)).drop (3 * j)).take 3)).flatten := by
    intro l
    congr 1
    apply List.map_congr_left
    intro j hj
    exact getD_map_range n_samples _ [] j (hidx j hj)
  simp only [_write_lines, read_gen_lines_ok w n_samples l0 rest hw hc, hall, if_true,
    List.map_map]
  rw [show ((l0 :: rest).map
      ((fun row => (index_array.map (fun j => row.getD j [])).flatten) ∘
        (fun l => (List.range n_samples).map
          (fun j => (((gen_cols l).drop (i_genotypes_of w)).drop (3 * j)).take 3)))) =
      (l0 :: rest).map (fun l => (index_array.map (fun j =>
          (((gen_cols l).drop (i_genotypes_of w)).drop (3 * j)).take 3)).flatten) from
    List.map_congr_left (fun l _ => hrow l)]
  rw [zipWith_append_map (fun l => (gen_cols l).take (i_genotypes_of w))
    (fun l => (index_array.map (fun j =>
      (((gen_cols l).drop (i_genotypes_of w)).drop (3 * j)).take 3)).flatten)]
  rw [List.map_map]
  have hro : ((fun r => pySepJoin " " r) ∘
      (fun l => (gen_cols l).take (i_genotypes_of w) ++
        (index_array.map (fun j =>
          (((gen_cols l).drop (i_genotypes_of w)).drop (3 * j)).take 3)).flatten)) =
      row_out w index_array := rfl
  rw [hro]
  rw [List.map_cons, pySepJoin_nl]
  simp

theorem write_output_go_closed (bs n_samples : Nat) (index_array : List Nat)
    (w : Nat)
    (hc : w - i_genotypes_of w = 3 * n_samples)
    (hidx : ∀ j ∈ index_array, j < n_samples) :
    ∀ (stream buffered : List String) (out : String) (counter : Nat),
      (∀ l ∈ buffered, (gen_cols l).length = w) →
      (∀ l ∈ stream, (gen_cols l).length = w) →
      write_output_go bs n_samples index_array buffered stream out counter =
        .ok (out ++ linesOut ((buffered ++ stream).map (row_out w index_array)),
             counter + (buffered.length + stream.length)) := by
  intro stream
  induction stream with
  | nil =>
    intro buffered out counter hb _
    cases buffered with
    | nil => simp [write_output_go, linesOut]
    | cons b0 bs' =>
      rw [write_output_go]
      rw [if_pos (by simp)]
      rw [_write_lines_ok w n_samples index_array b0 bs' hb hc hidx]
      simp
  | cons line rest ih =>
    intro buffered out counter hb hs
    have hbl : ∀ l ∈ buffered ++ [line], (gen_cols l).length = w := by
      intro l hl
      rcases List.mem_append.mp hl with h | h
      · exact hb l h
      · rcases List.mem_singleton.mp h with rfl
        exact hs l (List.mem_cons_self _ _)
    have hrest : ∀ l ∈ rest, (gen_cols l).length = w :=
      fun l hl => hs l (List.mem_cons_of_mem _ hl)
    rw [write_output_go]
    by_cases hlen : (buffered ++ [line]).length = bs
    · rw [if_pos hlen]
      rcases List.exists_cons_of_ne_nil
          (show buffered ++ [line] ≠ [] by simp) with ⟨b0, bs', hb0⟩
      rw [hb0]
      rw [_write_lines_ok w n_samples index_array b0 bs' (hb0 ▸ hbl) hc hidx]
      show write_output_go bs n_samples index_array [] rest
          (out ++ linesOut ((b0 :: bs').map (row_out w index_array)))
          (counter + (b0 :: bs').length) = _
      rw [ih [] (out ++ linesOut ((b0 :: bs').map (row_out w index_array)))
        (counter + (b0 :: bs').length) (by simp) hrest]
      rw [show buffered ++ line :: rest = (buffered ++ [line]) ++ rest by simp, hb0]
      simp only [List.nil_append, List.map_append, linesOut_append, String.append_assoc,
        List.length_append, List.length_cons, List.length_nil, Except.ok.injEq,
        Prod.mk.injEq]
      have hlen2 : buffered.length + 1 = bs'.length + 1 := by
        have := congrArg List.length hb0
        simp at this
        omega
      exact ⟨trivial, by omega⟩
    · rw [if_neg hlen]
      rw [ih (buffered ++ [line]) out counter hbl hrest]
      rw [show (buffered ++ [line]) ++ rest = buffered ++ line :: rest by simp]
      simp only [List.length_append, List.length_singleton, List.length_cons,
        List.length_nil, Except.ok.injEq, Prod.mk.injEq]
      exact ⟨trivial, by omega⟩

theorem write_output_buf_closed (bufSize n_samples : Nat) (index_array : List Nat)
    (w : Nat) (lines : List String)
    (hw : ∀ l ∈ lines, (gen_cols l).length = w)
    (hc : w - i_genotypes_of w = 3 * n_samples)
    (hidx : ∀ j ∈ index_array, j < n_samples) :
    write_output_buf bufSize lines n_samples index_array =
      .ok (linesOut (lines.map (row_out w index_array)), lines.length) := by
  unfold write_output_buf
  rw [write_output_go_closed bufSize n_samples index_array w hc hidx lines [] "" 0
    (by simp) hw]
  simp

/-! ### The claims -/

/-- C1: for input sample order [A, B, C], target order [C, A, B] and
subsetting disallowed, the resolved permutation maps new position 0 to old
position 2, 1 to 0 and 2 to 1; applied to a data row with 5 descriptor
columns and three probability triplets it emits the descriptors unchanged
followed by C's triplet, then A's, then B's. -/
theorem c1_scenario_permutation_and_row :
    resolve_index_array ["A", "B", "C"] ["C", "A", "B"] false = .ok [2, 0, 1] ∧
    _write_lines ["rsX 1 2 3 4 0.1 0.2 0.7 0.3 0.3 0.4 0.5 0.3 0.2"] 3 [2, 0, 1] =
      .ok ("rsX 1 2 3 4 0.5 0.3 0.2 0.1 0.2 0.7 0.3 0.3 0.4\n", 1) :=
  ⟨rfl, rfl⟩

/-- C2: for consistent-width input and a valid index permutation, processing
in fixed-size batches of any size gives the same output text as processing
all lines as one batch, and the returned row count is the number of input
lines. -/
theorem c2_batching_refinement (bufSize w n_samples : Nat)
    (index_array : List Nat) (lines : List String)
    (hw : ∀ l ∈ lines, (gen_cols l).length = w)
    (hc : w - i_genotypes_of w = 3 * n_samples)
    (hidx : ∀ j ∈ index_array, j < n_samples) :
    write_output_buf bufSize lines n_samples index_array =
      write_output_buf lines.length lines n_samples index_array ∧
    write_output_buf bufSize lines n_samples index_array =
      .ok (linesOut (lines.map (row_out w index_array)), lines.length) := by
  have h1 := write_output_buf_closed bufSize n_samples index_array w lines hw hc hidx
  have h2 := write_output_buf_closed lines.length n_samples index_array w lines hw hc hidx
  exact ⟨h1.trans h2.symm, h1⟩

/-- Witness for C2 at a concrete one-line input with one sample, identity
permutation, and the script's buffer size. -/
theorem c2_batching_refinement_witness :
    write_output_buf 6 ["a b c d e 0.1 0.2 0.3"] 1 [0] =
      write_output_buf 1 ["a b c d e 0.1 0.2 0.3"] 1 [0] ∧
    write_output_buf 6 ["a b c d e 0.1 0.2 0.3"] 1 [0] =
      .ok (linesOut (["a b c d e 0.1 0.2 0.3"].map (row_out 8 [0])), 1) :=
  c2_batching_refinement 6 8 1 [0] ["a b c d e 0.1 0.2 0.3"]
    (by decide) (by decide) (by decide)

/-- C3: reordering a batch of well-formed single-space-separated rows with
the identity permutation leaves every row - descriptor columns and genotype
values - byte-for-byte unchanged in the output. -/
theorem c3_identity_permutation_roundtrip (w n_samples : Nat) (l0 : String)
    (rest : List String)
    (hw : ∀ l ∈ l0 :: rest, (gen_cols l).length = w)
    (hc : w - i_genotypes_of w = 3 * n_samples)
    (hjoin : ∀ l ∈ l0 :: rest, pySepJoin " " (gen_cols l) = l) :
    _write_lines (l0 :: rest) n_samples (List.range n_samples) =
      .ok (linesOut (l0 :: rest), (l0 :: rest).length) := by
  rw [_write_lines_ok w n_samples (List.range n_samples) l0 rest hw hc
    (fun j hj => List.mem_range.mp hj)]
  have hrow : ∀ l ∈ l0 :: rest, row_out w (List.range n_samples) l = l := by
    intro l hl
    unfold row_out
    rw [join_chunks n_samples ((gen_cols l).drop (i_genotypes_of w))
      (by rw [List.length_drop, hw l hl]; exact hc)]
    rw [List.take_append_drop]
    exact hjoin l hl
  rw [List.map_congr_left hrow]
  simp

/-- Witness for C3 at a concrete single-row batch with one sample. -/
theorem c3_identity_permutation_roundtrip_witness :
    _write_lines ["rsX 1 2 3 4 0.1 0.2 0.7"] 1 (List.range 1) =
      .ok (linesOut ["rsX 1 2 3 4 0.1 0.2 0.7"], 1) :=
  c3_identity_permutation_roundtrip 8 1 "rsX 1 2 3 4 0.1 0.2 0.7" []
    (by decide) (by decide) (by decide)

/-- C4: when the target order contains an identifier absent from the input
order (input [A 1, B 1], target [A 1, B 1, D 1]), the run does NOT fail with
the intended incomplete-permutation report: it crashes earlier, with an
AttributeError from `None.strip()` while writing the new sample file, for
either value of the subsetting flag.  The explicit completeness check on the
index array is unreachable in this situation. -/
theorem c4_unmatched_target_crashes_sample_writer (allow_subsetting : Bool) :
    main_resolve ["ID_1 ID_2", "0 0", "A 1", "B 1"] ["A 1", "B 1", "D 1"]
      false allow_subsetting = .error (.attributeError "strip") := by
  cases allow_subsetting <;> rfl

/-- C5: with `--model-sample` absent, `main` reads `options.new_order`, but
`parse_options` stores the `--order` value under the attribute `order`, so
the program raises AttributeError instead of reading the plain order file. -/
theorem c5_order_option_attribute_crash :
    select_target_order_source (parse_options_ns
      ⟨none, none, some "input.sample", some "output.sample",
       some "target_order.txt", none, false⟩) =
      .error (.attributeError "new_order") := rfl

/-- C6: on a batch of common column count `w`, the parser takes the first 6
columns as descriptors when `w` is divisible by 3 and the first 5 otherwise,
the rest being the genotype columns, reshaped into per-sample triplets. -/
theorem c6_descriptor_width_heuristic (w n_samples : Nat) (l0 : String)
    (rest : List String)
    (hw : ∀ l ∈ l0 :: rest, (gen_cols l).length = w)
    (hc : w - (if w % 3 = 0 then 6 else 5) = 3 * n_samples) :
    read_gen_lines (l0 :: rest) n_samples =
      .ok ((l0 :: rest).map
            (fun l => (gen_cols l).take (if w % 3 = 0 then 6 else 5)),
           (l0 :: rest).map (fun l =>
             (List.range n_samples).map (fun j =>
               (((gen_cols l).drop (if w % 3 = 0 then 6 else 5)).drop (3 * j)).take 3))) :=
  read_gen_lines_ok w n_samples l0 rest hw hc

/-- Witness for C6 at a 12-column row (divisible by 3, hence 6 descriptor
columns) with two samples. -/
theorem c6_descriptor_width_heuristic_witness :
    read_gen_lines ["1 rs1 0 A G X 0.1 0.2 0.7 0.3 0.3 0.4"] 2 =
      .ok ([["1", "rs1", "0", "A", "G", "X"]],
           [[["0.1", "0.2", "0.7"], ["0.3", "0.3", "0.4"]]]) :=
  c6_descriptor_width_heuristic 12 2 "1 rs1 0 A G X 0.1 0.2 0.7 0.3 0.3 0.4" []
    (by decide) (by decide)

/-- C7: on a row whose genotype column count is not 3 times the sample count
(here 2 genotype columns for 2 samples), the script does not produce the
GenotypeCountMismatch message with the row's descriptors: formatting the
message applies `' '.join` to the 2-D descriptor array and raises TypeError. -/
theorem c7_genotype_mismatch_message_typeerror :
    read_gen_lines ["rsX 1 2 3 4 0.1 0.2"] 2 = .error .typeError := rfl

/-- C8: reading a sample order fails with the duplicate-identifier error if
and only if the identifier sequence (headers already discarded for a
metadata file) contains a repeated identifier, and otherwise returns the
identifiers in file order. -/
theorem c8_duplicate_identifier_iff (fileLines : List String)
    (is_sample_file : Bool) :
    (read_sample_order fileLines is_sample_file = .error .duplicateIdentifier ↔
      ¬ (sample_ids fileLines is_sample_file).Nodup) ∧
    (read_sample_order fileLines is_sample_file =
        .ok (sample_ids fileLines is_sample_file) ↔
      (sample_ids fileLines is_sample_file).Nodup) := by
  by_cases hnd : (sample_ids fileLines is_sample_file).Nodup
  · have heq : (sample_ids fileLines is_sample_file).dedup.length =
        (sample_ids fileLines is_sample_file).length := by
      rw [List.dedup_eq_self.mpr hnd]
    unfold read_sample_order
    rw [if_neg (fun h => h heq)]
    exact ⟨⟨fun h => Except.noConfusion h, fun h => (h hnd).elim⟩,
           ⟨fun _ => hnd, fun _ => rfl⟩⟩
  · have hne : (sample_ids fileLines is_sample_file).dedup.length ≠
        (sample_ids fileLines is_sample_file).length := by
      intro h
      apply hnd
      have h2 := (List.dedup_sublist (sample_ids fileLines is_sample_file)).eq_of_length h
      rw [← h2]
      exact List.nodup_dedup _
    unfold read_sample_order
    rw [if_pos hne]
    exact ⟨⟨fun _ => hnd, fun _ => rfl⟩,
           ⟨fun h => Except.noConfusion h, fun h => (hnd h).elim⟩⟩

/-- C9: the inconsistent-row-width failure of the parser fires exactly when
some row of the batch has a column count different from the batch's first
row; rows in different batches of one run may have different column counts
without triggering it, witnessed by a 7-line run (buffer size 6) whose
seventh line has 12 columns while the first six have 11. -/
theorem c9_row_width_checked_per_batch :
    (∀ (l0 : String) (rest : List String) (n_samples : Nat),
      read_gen_lines (l0 :: rest) n_samples = .error .inconsistentRowWidth ↔
        ∃ l ∈ l0 :: rest, (gen_cols l).length ≠ (gen_cols l0).length) ∧
    (write_output mixed_width_lines 2 [0, 1]).isOk = true := by
  constructor
  · intro l0 rest n_samples
    by_cases hall : ((l0 :: rest).map gen_cols).all
        (fun i => i.length == (gen_cols l0).length) = true
    · have hrhs : ¬ ∃ l ∈ l0 :: rest,
          (gen_cols l).length ≠ (gen_cols l0).length := by
        rw [List.all_eq_true] at hall
        rintro ⟨l, hl, hne⟩
        have := hall (gen_cols l) (List.mem_map_of_mem _ hl)
        rw [beq_iff_eq] at this
        exact hne this
      have hlhs : read_gen_lines (l0 :: rest) n_samples ≠
          .error .inconsistentRowWidth := by
        unfold read_gen_lines
        simp only [hall, if_true]
        by_cases hcnt : ((gen_cols l0).drop
            (i_genotypes_of (gen_cols l0).length)).length = 3 * n_samples
        · have hp : (gen_cols l0).length - i_genotypes_of (gen_cols l0).length =
              3 * n_samples := by
            rw [← List.length_drop]
            exact hcnt
          simp [hcnt, hp]
        · have hp : ¬ ((gen_cols l0).length - i_genotypes_of (gen_cols l0).length =
              3 * n_samples) := by
            rw [← List.length_drop]
            exact hcnt
          simp [hcnt, hp, pyStrJoinItems]
      exact ⟨fun h => (hlhs h).elim, fun h => (hrhs h).elim⟩
    · have hred : read_gen_lines (l0 :: rest) n_samples =
          .error .inconsistentRowWidth := by
        simp only [read_gen_lines]
        rw [if_neg hall]
      constructor
      · intro _
        rw [List.all_eq_true] at hall
        push_neg at hall
        rcases hall with ⟨x, hx, hne⟩
        rcases List.mem_map.mp hx with ⟨l, hl, rfl⟩
        simp only [ne_eq, beq_iff_eq] at hne
        exact ⟨l, hl, hne⟩
      · intro _
        exact hred
  · rfl

/-- C10: on an empty input stream the driver returns row count 0 and writes
nothing at all to the output. -/
theorem c10_empty_input_writes_nothing (n_samples : Nat)
    (index_array : List Nat) :
    write_output [] n_samples index_array = .ok ("", 0) := rfl

end OrderGenfile
